import Mathlib

/-!
Verification development for the SUEPML distributed ternary-quantized SSD
training loop (`jet-ssd-train.py`).  Scalars are modelled as rationals and
weight tensors as lists of rationals; the per-rank control flow around the
epoch loop is modelled as explicit state passing.
-/

namespace SUEPML

/-! ### Ternary quantizer (`ssd.qutils` and the call sites in `execute`) -/

/-- Modelled from the spec: `get_delta` lives in `ssd/qutils.py`, which is not
part of the given sources.  The spec requires the threshold to be a function
only of the weight magnitudes (a magnitude statistic separating near-zero
from significant weights); we model the standard ternary-weight-network
choice, 0.7 times the mean absolute weight. -/
def get_delta (w : List ℚ) : ℚ :=
  (7 / 10) * (w.map (fun x => |x|)).sum / (w.length : ℚ)

/-- Modelled from the spec: `get_alpha` lives in `ssd/qutils.py`, which is not
part of the given sources.  The spec requires the scale to reflect the mean
magnitude of the weights exceeding the threshold. -/
def get_alpha (w : List ℚ) (delta : ℚ) : ℚ :=
  let over := w.filter (fun x => decide (delta < |x|))
  ((over.map (fun x => |x|)).sum) / (over.length : ℚ)

/-- One ternarized weight element: thresholding against `delta` yields a value
in the three-element set containing `-alpha`, `0` and `alpha`. -/
def ternarize (delta alpha x : ℚ) : ℚ :=
  if delta < x then alpha else if x < -delta then -alpha else 0

/-- `to_ternary(tensor, delta, alpha)`: elementwise ternarization with the
given threshold and scale (the training-pass call at line 192). -/
def to_ternary (w : List ℚ) (delta alpha : ℚ) : List ℚ :=
  w.map (ternarize delta alpha)

/-- Modelled from the spec: `to_ternary(tensor)` with the threshold and scale
omitted (the validation-pass call at line 295) recomputes both from the
tensor it is handed, per the spec's §9 note that the validation path
recomputes rather than reusing the stored per-epoch values. -/
def to_ternary_default (w : List ℚ) : List ℚ :=
  to_ternary w (get_delta w) (get_alpha w (get_delta w))

/-- An eligible layer's weight with its attached attributes: `data` is the
tensor the layer computes with, `org` the shadow copy (`m.weight.org`), and
`delta`/`alpha` the per-epoch quantization statistics set at lines 181-183. -/
structure ConvWeight where
  data : List ℚ
  org : List ℚ
  delta : ℚ
  alpha : ℚ
deriving DecidableEq

/-- Lines 191-194: save the shadow copy, then overwrite the weight with its
ternary view built from the stored per-epoch `delta` and `alpha`. -/
def saveAndTernarize (w : ConvWeight) : ConvWeight :=
  { w with org := w.data, data := to_ternary w.data w.delta w.alpha }

/-- Lines 236-238 (after backward, before `scaler.step(optimizer)`):
`m.weight.data.copy_(m.weight.org)`. -/
def restoreFromShadow (w : ConvWeight) : ConvWeight :=
  { w with data := w.org }

/-- Line 240: the optimizer mutates `weight.data`; the update rule is opaque
here, so it is an arbitrary function of the full-precision weight. -/
def optimizerStep (upd : List ℚ → List ℚ) (w : ConvWeight) : ConvWeight :=
  { w with data := upd w.data }

/-- Elementwise clamp to the interval from `lo` to `hi`. -/
def clampList (lo hi : ℚ) (xs : List ℚ) : List ℚ :=
  xs.map (fun x => max lo (min hi x))

/-- Line 247: `m.weight.org.copy_(m.weight.data.clamp_(-1, 1))` — the in-place
`clamp_` clamps `weight.data` itself, and the clamped tensor is then copied
into the shadow, which becomes the new baseline. -/
def postStepClamp (w : ConvWeight) : ConvWeight :=
  let c := clampList (-1) 1 w.data
  { w with data := c, org := c }

/-- One training batch's effect on an eligible layer's weight in ternary mode,
composing lines 188-194 (save + ternarize), 233 (backward, which leaves the
weight data untouched), 236-238 (restore), 240 (optimizer step) and 244-247
(clamp + new shadow baseline), in source order — one cycle per batch. -/
def trainBatchTernary (upd : List ℚ → List ℚ) (w : ConvWeight) : ConvWeight :=
  postStepClamp (optimizerStep upd (restoreFromShadow (saveAndTernarize w)))

/-- Lines 292-295 (validation): save the shadow copy, then overwrite the
weight with `to_ternary(m.weight.data)` — no threshold or scale passed. -/
def valTernarize (w : ConvWeight) : ConvWeight :=
  { w with org := w.data, data := to_ternary_default w.data }

/-- Lines 366-368 (after the validation batches): `m.weight.org.copy_(m.weight.data)`
copies the current (ternary) data into the shadow. -/
def valEpilogue (w : ConvWeight) : ConvWeight :=
  { w with org := w.data }

/-- The whole validation pass's effect on an eligible layer's weight in
ternary mode: the batches only read the weight, so the pass is the
ternarization prologue followed by the epilogue copy. -/
def validationPassTernary (w : ConvWeight) : ConvWeight :=
  valEpilogue (valTernarize w)

/-! ### Distributed reducer (`reduce_tensor`, lines 380-393) -/

/-- `dist.all_reduce` with the default sum operation: the list holds one
scalar per rank, and afterwards every rank holds the sum over all ranks. -/
def all_reduce (vals : List ℚ) : List ℚ :=
  vals.map (fun _ => vals.sum)

/-- The reduction applied to one of the scalars of `reduce_tensor`: clone,
`dist.all_reduce`, then divide by `int(os.environ[WORLD_SIZE])`, which
`setup` (line 404) sets to the world size. -/
def reduce_scalar (world_size : ℕ) (vals : List ℚ) : List ℚ :=
  (all_reduce vals).map (fun s => s / (world_size : ℚ))

/-- `reduce_tensor(loc, cls, reg)` (lines 380-393, `disco=None` path): each of
the three scalars is reduced identically. -/
def reduce_tensor (world_size : ℕ) (loc cls reg : List ℚ) :
    List ℚ × List ℚ × List ℚ :=
  (reduce_scalar world_size loc, reduce_scalar world_size cls,
    reduce_scalar world_size reg)

/-! ### Epoch-end synchronization (lines 360-363) -/

/-- Where a rank stands right after the early-stopping check of an epoch. -/
inductive EpochEndState where
  /-- The rank is blocked in `dist.barrier()` at line 363. -/
  | atBarrier
  /-- The rank took the `break` at line 361 and is heading to `cleanup()`. -/
  | exitedLoop
deriving DecidableEq

/-- Lines 360-363: `if rank == 0 and cp_es(...): break` followed by
`dist.barrier()` — only rank 0 evaluates the gate, and a positive decision
makes it leave the loop without reaching the barrier; every other rank
proceeds straight to the barrier. `stop` is the gate's decision. -/
def epochEndAction (stop : Bool) (rank : ℕ) : EpochEndState :=
  if rank = 0 ∧ stop = true then .exitedLoop else .atBarrier

/-- A `dist.barrier()` call completes only when every rank of the group
reaches it; a rank that left the loop never does, so a `false` here means
the ranks standing at the barrier block forever. -/
def barrierCompletes (world_size : ℕ) (stop : Bool) : Bool :=
  (List.range world_size).all fun r => decide (epochEndAction stop r = .atBarrier)

/-! ### Loss/metric bookkeeping (`AverageMeter` updates, lines 223-231 and
306-321) -/

/-- The running-mean accumulator from `utils.AverageMeter`: `update(v)` adds
`v` to the sum and one to the count; `avg` is their quotient. -/
structure AverageMeter where
  sum : ℚ
  count : ℕ
deriving DecidableEq

/-- `AverageMeter.update` with the default weight of one. -/
def AverageMeter.update (m : AverageMeter) (v : ℚ) : AverageMeter :=
  ⟨m.sum + v, m.count + 1⟩

/-- `AverageMeter.avg`. -/
def AverageMeter.avg (m : AverageMeter) : ℚ :=
  m.sum / (m.count : ℚ)

/-- A freshly reset meter. -/
def AverageMeter.reset : AverageMeter := ⟨0, 0⟩

/-- The box-level precision/recall entries the loop reads from the loss
module's box MetricVector: indices [0][1], [0][2], [1][1], [1][2]. -/
structure BoxMetrics where
  preSUEP : ℚ
  preQCD : ℚ
  recSUEP : ℚ
  recQCD : ℚ
deriving DecidableEq

/-- The event-level precision/recall pair. -/
structure EventMetrics where
  pre : ℚ
  recl : ℚ
deriving DecidableEq

/-- What the criterion returns for one validation batch, restricted to the
metric part: `boxMetricsVal` and `eventMetricsVal` (lines 306 and 310). -/
structure BatchMetrics where
  box : BoxMetrics
  event : EventMetrics
deriving DecidableEq

/-- The six metric meters the validation pass updates. -/
structure ValMeters where
  boxPreSUEP : AverageMeter
  boxPreQCD : AverageMeter
  boxRecSUEP : AverageMeter
  boxRecQCD : AverageMeter
  eventPre : AverageMeter
  eventRec : AverageMeter
deriving DecidableEq

/-- The meters after the resets at lines 280-285. -/
def ValMeters.reset : ValMeters :=
  ⟨.reset, .reset, .reset, .reset, .reset, .reset⟩

/-- Lines 316-321, one validation batch: the four box meters are updated from
`boxMetrics` — the variable left over from the last *training* batch (set at
line 216/220), not this batch's `boxMetricsVal` — while the two event meters
are updated from this batch's `eventMetricsVal`. -/
def valMetricUpdate (staleBox : BoxMetrics) (m : ValMeters) (b : BatchMetrics) :
    ValMeters :=
  { boxPreSUEP := m.boxPreSUEP.update staleBox.preSUEP
    boxPreQCD := m.boxPreQCD.update staleBox.preQCD
    boxRecSUEP := m.boxRecSUEP.update staleBox.recSUEP
    boxRecQCD := m.boxRecQCD.update staleBox.recQCD
    eventPre := m.eventPre.update b.event.pre
    eventRec := m.eventRec.update b.event.recl }

/-- The whole validation pass's metric accumulation: fold the per-batch
update over the batches, starting from freshly reset meters; `staleBox` is
the value the `boxMetrics` variable holds on entering the pass. -/
def valAccumulate (staleBox : BoxMetrics) (batches : List BatchMetrics) :
    ValMeters :=
  batches.foldl (valMetricUpdate staleBox) ValMeters.reset

/-! ### Learning-rate schedule (lines 115-118 and 369) -/

/-- `torch.optim.lr_scheduler.MultiStepLR` semantics: after `n` scheduler
steps the learning rate is the initial rate multiplied by `gamma` once for
every milestone that `n` has reached.  The epoch loop calls
`scheduler.step()` exactly once at the end of each epoch (line 369), so `n`
is also the number of completed epochs. -/
def multiStepLR (milestones : List ℕ) (gamma init : ℚ) (n : ℕ) : ℚ :=
  init * gamma ^ (milestones.filter (fun m => decide (m ≤ n))).length

/-- The milestone list the scheduler is constructed with (lines 116-117). -/
def trainMilestones : List ℕ := [20, 30, 50, 60, 70, 80, 90]

/-- The decay factor the scheduler is constructed with (line 118). -/
def trainGamma : ℚ := 1 / 2

/-! ### Process-group lifecycle (lines 55, 370, 401-410) -/

/-- The per-rank process state the lifecycle claims speak about. -/
structure ProcState where
  groupInit : Bool
  groupDestroyed : Bool
deriving DecidableEq

/-- `cleanup()` (lines 409-410): `dist.destroy_process_group()`. -/
def cleanup (s : ProcState) : ProcState :=
  { s with groupDestroyed := true }

/-- How the epoch loop of `execute` can be left. -/
inductive LoopExit where
  /-- The loop ran through all `max_epochs` iterations. -/
  | completedAll
  /-- Rank 0 took the early-stopping `break` at line 361. -/
  | earlyStopBreak
  /-- An exception escaped the loop body; nothing in `execute` catches it. -/
  | raised
deriving DecidableEq

/-- What runs after the epoch loop of `execute`: line 370 calls `cleanup()`
unconditionally, but it is not inside any try/finally, so an exception
propagating out of the loop body skips it and the process dies with the
group still registered. -/
def executeTail (s : ProcState) : LoopExit → ProcState
  | .completedAll => cleanup s
  | .earlyStopBreak => cleanup s
  | .raised => s

/-! ### The per-batch status variable `info` (lines 185-260, 297-332) -/

/-- The locals of `execute` the logging statements read: `info` is assigned
only inside the batch loops (lines 250-254 and 323-326), so it starts each
run unbound. The payload records which epoch and pass last assigned it
(`true` = validation). -/
structure LoopVars where
  info : Option (ℕ × Bool)
deriving DecidableEq

/-- The training batch loop of epoch `epoch` (lines 185-257): each of the
`nBatches` iterations reassigns `info`; with zero batches the loop body
never runs and `info` keeps its previous state. -/
def trainPass (epoch nBatches : ℕ) (v : LoopVars) : LoopVars :=
  if nBatches = 0 then v else { info := some (epoch, false) }

/-- The validation batch loop of epoch `epoch` (lines 297-329): same shape. -/
def valPass (epoch nBatches : ℕ) (v : LoopVars) : LoopVars :=
  if nBatches = 0 then v else { info := some (epoch, true) }

/-- Lines 259-260 and 331-332: rank 0 executes `logger.debug(info)`; reading
`info` before any assignment raises `UnboundLocalError`, modelled as
`none`. Other ranks skip the read. -/
def readInfo (rank : ℕ) (v : LoopVars) : Option LoopVars :=
  if rank = 0 ∧ v.info = none then none else some v

/-- One epoch on one rank, restricted to the `info` variable: training pass,
rank-0 end-of-training-pass log, validation pass, rank-0 end-of-validation
log.  `none` means the epoch did not complete normally. -/
def runEpoch (rank epoch nTrain nVal : ℕ) (v : LoopVars) : Option LoopVars := do
  let v1 := trainPass epoch nTrain v
  let v2 ← readInfo rank v1
  let v3 := valPass epoch nVal v2
  readInfo rank v3

/-- The epoch loop from epoch number `epoch` on, over a list of
(training-batch count, validation-batch count) pairs. -/
def runEpochsFrom (rank : ℕ) : ℕ → List (ℕ × ℕ) → LoopVars → Option LoopVars
  | _, [], v => some v
  | epoch, (nt, nv) :: rest, v => do
      let v' ← runEpoch rank epoch nt nv v
      runEpochsFrom rank (epoch + 1) rest v'

/-- A whole run of the epoch loop on one rank, starting at epoch 1
(line 153) with `info` unbound. -/
def runEpochs (rank : ℕ) (epochs : List (ℕ × ℕ)) : Option LoopVars :=
  runEpochsFrom rank 1 epochs ⟨none⟩

/-! ### Eligible-layer predicate (`is_first_or_last`, lines 373-377) -/

/-- The structural data of a network module the predicate inspects:
whether it is an `nn.Conv2d`, and if so its (normalized, pair-valued)
kernel size and channel counts. -/
structure Layer where
  isConv2d : Bool
  kernel_size : ℕ × ℕ
  in_channels : ℕ
  out_channels : ℕ
deriving DecidableEq

/-- Lines 373-377: `isinstance(layer, nn.Conv2d) and layer.kernel_size == (3, 3)
and layer.in_channels > 3 and layer.out_channels > 4`. -/
def is_first_or_last (layer : Layer) : Bool :=
  layer.isConv2d && decide (layer.kernel_size = (3, 3))
    && decide (3 < layer.in_channels) && decide (4 < layer.out_channels)

/-! ### Sample inputs used by witnesses and counterexamples -/

/-- A concrete eligible-layer weight: three elements, with the per-epoch
threshold and scale that `get_delta`/`get_alpha` produce for this tensor. -/
def sampleW : ConvWeight := ⟨[1/2, 0, -1], [1/2, 0, -1], 7/20, 3/4⟩

/-- A concrete eligible-layer weight whose stored per-epoch threshold and
scale differ from what a fresh recomputation on the current tensor yields
(during training the tensor drifts away from its epoch-start value). -/
def driftedW : ConvWeight := ⟨[1/2, 0, -1], [1/2, 0, -1], 5, 2⟩

/-- Box metrics all zero: the value the training loop's `boxMetrics`
variable holds in the stale-read scenario. -/
def staleBox0 : BoxMetrics := ⟨0, 0, 0, 0⟩

/-- One validation batch whose own box and event metrics are all one. -/
def valBatch1 : BatchMetrics := ⟨⟨1, 1, 1, 1⟩, ⟨1, 1⟩⟩

/-! ### Helper lemmas -/

/-- Bumping the step count by one adds to the milestone filter exactly the
milestones equal to the new count. -/
lemma length_filter_le_succ (ms : List ℕ) (n : ℕ) :
    (ms.filter (fun m => decide (m ≤ n + 1))).length
      = (ms.filter (fun m => decide (m ≤ n))).length + ms.count (n + 1) := by
  induction ms with
  | nil => simp
  | cons a t ih =>
    by_cases h2 : a ≤ n
    · have h1 : a ≤ n + 1 := by omega
      have h3 : a ≠ n + 1 := by omega
      simp [List.filter_cons, h1, h2, List.count_cons, h3, ih]
      omega
    · by_cases h1 : a ≤ n + 1
      · have h3 : a = n + 1 := by omega
        simp [List.filter_cons, h1, h2, List.count_cons, h3, ih]
        omega
      · have h3 : a ≠ n + 1 := by omega
        simp [List.filter_cons, h1, h2, List.count_cons, h3, ih]

/-- One scheduler step multiplies the rate by `gamma` once per milestone
equal to the new step count. -/
lemma multiStepLR_step (ms : List ℕ) (gamma init : ℚ) (n : ℕ) :
    multiStepLR ms gamma init (n + 1)
      = gamma ^ ms.count (n + 1) * multiStepLR ms gamma init n := by
  unfold multiStepLR
  rw [length_filter_le_succ, pow_add]
  ring

/-- The milestone filter for the two-milestone example, case-split form. -/
lemma filter_le_twomile (e : ℕ) :
    ((([20, 30] : List ℕ).filter (fun m => decide (m ≤ e))).length)
      = (if 20 ≤ e then 1 else 0) + (if 30 ≤ e then 1 else 0) := by
  by_cases h1 : (20 : ℕ) ≤ e <;> by_cases h2 : (30 : ℕ) ≤ e <;>
    simp [List.filter_cons, h1, h2]

/-- The quantization statistics of the sample tensor. -/
lemma get_delta_eval : get_delta [1/2, 0, -1] = 7/20 := by
  norm_num [get_delta, abs]

/-- The scale of the sample tensor at its threshold. -/
lemma get_alpha_eval : get_alpha [1/2, 0, -1] (7/20) = 3/4 := by
  norm_num [get_alpha, abs, List.filter]

/-- Ternarization of the sample tensor at its own statistics. -/
lemma to_ternary_eval : to_ternary [1/2, 0, -1] (7/20) (3/4) = [3/4, 0, -3/4] := by
  norm_num [to_ternary, ternarize]

/-- Ternarization of the sample tensor at fresh statistics. -/
lemma to_ternary_default_eval :
    to_ternary_default [1/2, 0, -1] = [3/4, 0, -3/4] := by
  rw [to_ternary_default, get_delta_eval, get_alpha_eval, to_ternary_eval]

/-- Ternarization of the sample tensor at the drifted stored statistics
kills every element. -/
lemma to_ternary_drift_eval : to_ternary [1/2, 0, -1] 5 2 = [0, 0, 0] := by
  norm_num [to_ternary, ternarize]

/-! ### Claim theorems -/

/-- Claim C1, as stated, is false: on a concrete eligible-layer weight, the
validation pass leaves the weight different from its pre-pass full-precision
value (it stays ternary, because the post-validation copy at line 368 goes
into the shadow, not out of it), and the ternary view it computed was not
built from the stored per-epoch `delta`/`alpha` (line 295 passes neither). -/
theorem C1_counterexample :
    (validationPassTernary driftedW).data ≠ driftedW.data
    ∧ (valTernarize driftedW).data
        ≠ to_ternary driftedW.data driftedW.delta driftedW.alpha := by
  have hdata : (validationPassTernary driftedW).data = [3/4, 0, -3/4] := by
    show to_ternary_default driftedW.data = _
    show to_ternary_default [1/2, 0, -1] = _
    exact to_ternary_default_eval
  have hdata' : (valTernarize driftedW).data = [3/4, 0, -3/4] := by
    show to_ternary_default [1/2, 0, -1] = _
    exact to_ternary_default_eval
  have hstored : to_ternary driftedW.data driftedW.delta driftedW.alpha
      = [0, 0, 0] := by
    show to_ternary [1/2, 0, -1] 5 2 = _
    exact to_ternary_drift_eval
  refine ⟨?_, ?_⟩
  · rw [hdata]
    show ([3/4, 0, -3/4] : List ℚ) ≠ [1/2, 0, -1]
    norm_num
  · rw [hdata', hstored]
    norm_num

/-- Claim C1 amended: in ternary mode the validation pass saves each eligible
layer's weight into the shadow attribute and overwrites the weight with a
ternary tensor whose threshold and scale are recomputed from the current
tensor (`to_ternary` is called without the stored per-epoch values); after
the batches, the shadow is overwritten with the ternary data instead of the
weight being restored, so the eligible layers' weights are left ternary. -/
theorem C1_validation_pass (w : ConvWeight) :
    (valTernarize w).org = w.data
    ∧ (valTernarize w).data = to_ternary_default w.data
    ∧ (validationPassTernary w).data = to_ternary_default w.data
    ∧ (validationPassTernary w).org = to_ternary_default w.data :=
  ⟨rfl, rfl, rfl, rfl⟩

/-- Claim C2 is right about the intent and the code violates it: with two
ranks and a positive stopping decision, rank 0 takes the `break` at line 361
and proceeds to teardown without reaching the barrier, rank 1 reaches the
barrier at line 363, and that barrier can never complete, so rank 1 blocks
forever; without a stop the barrier completes. -/
theorem C2_earlystop_divergence :
    epochEndAction true 0 = .exitedLoop
    ∧ epochEndAction true 1 = .atBarrier
    ∧ barrierCompletes 2 true = false
    ∧ barrierCompletes 2 false = true := by
  refine ⟨rfl, rfl, ?_, ?_⟩ <;> decide

/-- Claim C3: in one ternary-mode training batch the eligible layer's weight
is saved to the shadow, overwritten by a tensor whose every element is
`alpha`, `0` or `-alpha`, and restored from the shadow before the optimizer
step, so the optimizer's update is applied to the pre-ternarization
full-precision weight; `trainBatchTernary` performs this save/overwrite/
restore cycle exactly once per batch, in source order. -/
theorem C3_shadow_restore (upd : List ℚ → List ℚ) (w : ConvWeight) :
    (saveAndTernarize w).org = w.data
    ∧ (∀ x ∈ (saveAndTernarize w).data,
        x = w.alpha ∨ x = 0 ∨ x = -w.alpha)
    ∧ (restoreFromShadow (saveAndTernarize w)).data = w.data
    ∧ (optimizerStep upd (restoreFromShadow (saveAndTernarize w))).data
        = upd w.data := by
  refine ⟨rfl, ?_, rfl, rfl⟩
  intro x hx
  simp only [saveAndTernarize, to_ternary, List.mem_map] at hx
  obtain ⟨y, _, rfl⟩ := hx
  unfold ternarize
  split
  · exact Or.inl rfl
  · split
    · exact Or.inr (Or.inr rfl)
    · exact Or.inr (Or.inl rfl)

/-- Witness for C3 on a concrete weight: the first ternarized element of
`sampleW` is one of the three admissible values. -/
theorem C3_shadow_restore_witness :
    (3 : ℚ) / 4 = sampleW.alpha ∨ (3 : ℚ) / 4 = 0 ∨ (3 : ℚ) / 4 = -sampleW.alpha :=
  (C3_shadow_restore id sampleW).2.1 (3 / 4) (by
    have h : (saveAndTernarize sampleW).data = [3/4, 0, -3/4] := by
      show to_ternary [1/2, 0, -1] (7/20) (3/4) = _
      exact to_ternary_eval
    rw [h]
    norm_num)

/-- Claim C4: after the optimizer step of a ternary-mode training batch, the
stored full-precision weight lies in the interval from -1 to 1, and that
clamped tensor is recorded as the new shadow baseline (line 247 clamps
`weight.data` in place and copies it into `weight.org`). -/
theorem C4_clamp_invariant (upd : List ℚ → List ℚ) (w : ConvWeight) :
    (∀ x ∈ (trainBatchTernary upd w).data, -1 ≤ x ∧ x ≤ 1)
    ∧ (trainBatchTernary upd w).org = (trainBatchTernary upd w).data
    ∧ (trainBatchTernary upd w).data = clampList (-1) 1 (upd w.data) := by
  refine ⟨?_, rfl, rfl⟩
  intro x hx
  simp only [trainBatchTernary, postStepClamp, optimizerStep, restoreFromShadow,
    saveAndTernarize, clampList, List.mem_map] at hx
  obtain ⟨y, _, rfl⟩ := hx
  exact ⟨le_max_left _ _, max_le (by norm_num) (min_le_left _ _)⟩

/-- Witness for C4 on a concrete weight: the first post-step element of
`sampleW` lies in the clamp interval. -/
theorem C4_clamp_invariant_witness :
    -1 ≤ (1 : ℚ) / 2 ∧ (1 : ℚ) / 2 ≤ 1 :=
  (C4_clamp_invariant id sampleW).1 (1 / 2) (by
    have h : (trainBatchTernary id sampleW).data = [1/2, 0, -1] := by
      show clampList (-1) 1 (id [1/2, 0, -1]) = _
      norm_num [clampList]
    rw [h]
    norm_num)

/-- Claim C5: when one scalar per rank feeds the reduction, every rank
obtains the same value, the sum over ranks divided by `world_size`, which is
the arithmetic mean over ranks; in particular ranks holding 1, 2, 3, 4 all
obtain 5/2. -/
theorem C5_reduce_mean :
    (∀ (world_size : ℕ) (vals : List ℚ), vals.length = world_size →
      ∀ x ∈ reduce_scalar world_size vals,
        x = vals.sum / (world_size : ℚ) ∧ x = vals.sum / (vals.length : ℚ))
    ∧ reduce_scalar 4 [1, 2, 3, 4] = [5/2, 5/2, 5/2, 5/2] := by
  constructor
  · intro ws vals h x hx
    subst h
    simp only [reduce_scalar, all_reduce, List.map_map, List.mem_map,
      Function.comp_apply] at hx
    obtain ⟨y, _, rfl⟩ := hx
    exact ⟨rfl, rfl⟩
  · norm_num [reduce_scalar, all_reduce]

/-- Witness for C5 with two ranks holding 1 and 3: the reduced value a rank
sees is the mean, 2. -/
theorem C5_reduce_mean_witness :
    (2 : ℚ) = ([1, 3] : List ℚ).sum / ((2 : ℕ) : ℚ)
    ∧ (2 : ℚ) = ([1, 3] : List ℚ).sum / (([1, 3] : List ℚ).length : ℚ) :=
  C5_reduce_mean.1 2 [1, 3] rfl 2 (by norm_num [reduce_scalar, all_reduce])

/-- Claim C6 is right about the intent and the code violates it: with the
stale training-loop `boxMetrics` all zero and a single validation batch
whose own box MetricVector is all ones, the validation box running mean ends
at 0 instead of the batch's own value 1 (lines 316-319 read `boxMetrics`,
not `boxMetricsVal`), while the event running mean correctly ends at the
batch's own value. -/
theorem C6_stale_box_metrics :
    (valAccumulate staleBox0 [valBatch1]).boxPreSUEP.avg = 0
    ∧ (valAccumulate staleBox0 [valBatch1]).eventPre.avg = 1
    ∧ valBatch1.box.preSUEP = 1
    ∧ (valAccumulate staleBox0 [valBatch1]).boxPreSUEP.avg
        ≠ valBatch1.box.preSUEP := by
  norm_num [valAccumulate, valMetricUpdate, ValMeters.reset, AverageMeter.reset,
    AverageMeter.update, AverageMeter.avg, staleBox0, valBatch1]

/-- Claim C7, as stated, is false: when an exception escapes the epoch loop,
`execute` has no handler, so the `cleanup()` call at line 370 never runs and
the process group is left registered. -/
theorem C7_counterexample :
    (executeTail ⟨true, false⟩ .raised).groupDestroyed = false := rfl

/-- Claim C7 amended: the process group is torn down on both non-exceptional
exit paths of a rank's run — the epoch loop completing all epochs and the
early-stopping `break` — but not when an exception propagates out of the
loop, since the `cleanup()` call is not inside any try/finally. -/
theorem C7_cleanup_normal_exits (s : ProcState) :
    (executeTail s .completedAll).groupDestroyed = true
    ∧ (executeTail s .earlyStopBreak).groupDestroyed = true :=
  ⟨rfl, rfl⟩

/-- Claim C8: the schedule decays the rate by the factor 1/2 exactly when
the step count (one step per epoch, line 369) reaches a milestone, and with
milestones 20 and 30 and initial rate 1/10 the rate is 1/10 through epoch
19, 1/20 for epochs 20 through 29, and 1/40 from epoch 30 on. -/
theorem C8_lr_schedule (init : ℚ) (n e : ℕ) :
    (multiStepLR trainMilestones trainGamma init (n + 1)
        = (if n + 1 ∈ trainMilestones then trainGamma else 1)
          * multiStepLR trainMilestones trainGamma init n)
    ∧ (1 ≤ e → e ≤ 19 → multiStepLR [20, 30] (1/2) (1/10) e = 1/10)
    ∧ (20 ≤ e → e ≤ 29 → multiStepLR [20, 30] (1/2) (1/10) e = 1/20)
    ∧ (30 ≤ e → multiStepLR [20, 30] (1/2) (1/10) e = 1/40) := by
  refine ⟨?_, ?_, ?_, ?_⟩
  · by_cases hm : n + 1 ∈ trainMilestones
    · rw [if_pos hm, multiStepLR_step,
        List.count_eq_one_of_mem (by decide) hm, pow_one]
    · rw [if_neg hm, multiStepLR_step,
        List.count_eq_zero_of_not_mem hm, pow_zero, one_mul]
  · intro h1 h2
    unfold multiStepLR
    rw [filter_le_twomile, if_neg (by omega), if_neg (by omega)]
    norm_num
  · intro h1 h2
    unfold multiStepLR
    rw [filter_le_twomile, if_pos (by omega), if_neg (by omega)]
    norm_num
  · intro h1
    unfold multiStepLR
    rw [filter_le_twomile, if_pos (by omega), if_pos (by omega)]
    norm_num

/-- Witness for C8: at epoch 25 the two-milestone example rate is 1/20, and
stepping the code's schedule into epoch 20 applies the milestone decay. -/
theorem C8_lr_schedule_witness :
    multiStepLR [20, 30] (1/2) (1/10) 25 = 1/20
    ∧ multiStepLR trainMilestones trainGamma (1/10) 20
        = (if 20 ∈ trainMilestones then trainGamma else 1)
          * multiStepLR trainMilestones trainGamma (1/10) 19 :=
  ⟨(C8_lr_schedule (1/10) 0 25).2.2.1 (by norm_num) (by norm_num),
    (C8_lr_schedule (1/10) 19 0).1⟩

/-- Claim C9: the eligible-layer predicate holds exactly for `nn.Conv2d`
layers with 3x3 kernel, more than 3 input channels and more than 4 output
channels; a 3x3 convolution with 8 inputs and 16 outputs is eligible, while
a 1x1 convolution, a 3x3 convolution with 3 input channels, and a 3x3
convolution with 4 output channels are not. -/
theorem C9_eligible_layer :
    (∀ layer : Layer, is_first_or_last layer = true ↔
      (layer.isConv2d = true ∧ layer.kernel_size = (3, 3)
        ∧ 3 < layer.in_channels ∧ 4 < layer.out_channels))
    ∧ is_first_or_last ⟨true, (3, 3), 8, 16⟩ = true
    ∧ is_first_or_last ⟨true, (1, 1), 8, 16⟩ = false
    ∧ is_first_or_last ⟨true, (3, 3), 3, 16⟩ = false
    ∧ is_first_or_last ⟨true, (3, 3), 8, 4⟩ = false := by
  refine ⟨?_, by decide, by decide, by decide, by decide⟩
  intro layer
  simp [is_first_or_last, and_assoc]

/-- Claim C10, as stated, is false: a run whose first epoch has one training
batch and whose second epoch has zero training batches completes both
epochs, because `info` keeps the value the first epoch's validation pass
left in it — a non-empty training pass is not a precondition for finishing
every epoch. -/
theorem C10_counterexample :
    runEpochs 0 [(1, 1), (0, 1)] = some ⟨some (2, true)⟩ := rfl

/-- Claim C10 amended: on rank 0, an empty training pass aborts the run only
when the status variable has never been assigned — in particular a run whose
first epoch has zero training batches dies at the end-of-pass logging — while
in an epoch entered with the variable already bound, the empty training pass
is survived and control reaches the validation pass unchanged. -/
theorem C10_first_epoch_needs_batch (nVal : ℕ) (rest : List (ℕ × ℕ))
    (e nv : ℕ) (v : LoopVars) (h : v.info ≠ none) :
    runEpochs 0 ((0, nVal) :: rest) = none
    ∧ runEpoch 0 e 0 nv v = readInfo 0 (valPass e nv v) := by
  constructor
  · simp [runEpochs, runEpochsFrom, runEpoch, trainPass, readInfo]
  · have h1 : trainPass e 0 v = v := if_pos rfl
    have h2 : readInfo 0 v = some v := by simp [readInfo, h]
    simp [runEpoch, h1, h2]

/-- Witness for C10 amended: a run whose first epoch has no training batch
dies, and a second-epoch empty training pass with `info` bound proceeds to
validation. -/
theorem C10_first_epoch_needs_batch_witness :
    runEpochs 0 [(0, 3)] = none
    ∧ runEpoch 0 2 0 1 ⟨some (1, true)⟩
        = readInfo 0 (valPass 2 1 ⟨some (1, true)⟩) :=
  C10_first_epoch_needs_batch 3 [] 2 1 ⟨some (1, true)⟩ (by simp)

end SUEPML
